import Mathlib

set_option maxRecDepth 8000

namespace RagSpec

/-!
Shallow embedding of the multi-metric RAG evaluation orchestrator of this
repository: the round-robin model rotator, the score-extraction cascades of
the metric evaluators, the GROQ retry/backoff loop, the all-zero detection
gate, the heuristic fallback scoring, the RAG query wrapper and the
overall-score aggregation.  Scores are modelled as exact rationals, text as
lists of characters.
-/

/-- Round-robin model tracker state: mirrors the global `_global_model_tracker`
dict of `api/langchain-eval.py` (fields `current_index` and `models`) and the
`current_model_index` / `models` attributes of
`python_evaluators/langchain_evaluator.py`. -/
structure ModelTracker where
  currentIndex : Nat
  models : List String
deriving DecidableEq

/-- One call of `get_next_model` (`api/langchain-eval.py`) or `_get_next_model`
(`python_evaluators/langchain_evaluator.py`): return the model at the cursor
and advance the cursor modulo the pool size (`(i + 1) % len(models)`).  The
Python indexing `models[current_index]` is modelled with `List.getD`; the code
keeps `current_index < len(models)` whenever the pool is nonempty. -/
def getNextModel (t : ModelTracker) : String × ModelTracker :=
  ( t.models.getD t.currentIndex ""
  , { t with currentIndex := (t.currentIndex + 1) % t.models.length } )

/-- The sequence of models returned by `n` consecutive `get_next_model`
calls starting from tracker state `t`. -/
def rotatorOutputs : Nat → ModelTracker → List String
  | 0, _ => []
  | n + 1, t => (getNextModel t).1 :: rotatorOutputs n (getNextModel t).2

/-- The fixed four-model Gemini pool of `api/langchain-eval.py`. -/
def geminiModels : List String :=
  ["gemini-2.0-flash-lite", "gemini-2.0-flash",
   "gemini-2.5-flash-lite", "gemini-2.5-flash"]

theorem rotatorOutputs_eq_map (ms : List String) :
    ∀ n i, i < ms.length →
      rotatorOutputs n ⟨i, ms⟩ =
        (List.range n).map (fun k => ms.getD ((i + k) % ms.length) "") := by
  intro n
  induction n with
  | zero => intro i _; simp [rotatorOutputs]
  | succ n ih =>
    intro i hi
    have hlen : 0 < ms.length := Nat.lt_of_le_of_lt (Nat.zero_le i) hi
    have hstep : (i + 1) % ms.length < ms.length := Nat.mod_lt _ hlen
    have hrec := ih ((i + 1) % ms.length) hstep
    have hfun :
        (fun k => ms.getD (((i + 1) % ms.length + k) % ms.length) "") =
          (fun k => ms.getD ((i + (k + 1)) % ms.length) "") := by
      funext k
      have h1 : ((i + 1) % ms.length + k) % ms.length = (i + 1 + k) % ms.length :=
        Nat.mod_add_mod (i + 1) ms.length k
      have h2 : i + 1 + k = i + (k + 1) := by omega
      rw [h1, h2]
    have hhead : (i + 0) % ms.length = i := by
      simpa using Nat.mod_eq_of_lt hi
    simp only [rotatorOutputs, getNextModel, List.range_succ_eq_map, List.map_cons,
      List.map_map]
    rw [hhead]
    congr 1
    rw [hrec, hfun]
    apply List.map_congr_left
    intro k _
    rfl

theorem map_range_getD (ms : List String) :
    (List.range ms.length).map (fun k => ms.getD k "") = ms := by
  apply List.ext_getElem
  · simp
  · intro i h1 h2
    simp only [List.getElem_map, List.getElem_range]
    exact List.getD_eq_getElem ms "" h2

/-- Claim C3: for a rotator over a fixed pool of `N` model identifiers
starting at cursor `0`, the first `N` calls of the next-model operation
return exactly the pool in list order (hence, for a duplicate-free pool,
each identifier exactly once), and `2N` consecutive calls return that same
sequence twice. -/
theorem modelRotator_cyclic (ms : List String) (h : 0 < ms.length) :
    rotatorOutputs ms.length ⟨0, ms⟩ = ms ∧
    rotatorOutputs (2 * ms.length) ⟨0, ms⟩ = ms ++ ms ∧
    (ms.Nodup → ∀ m ∈ ms, (rotatorOutputs ms.length ⟨0, ms⟩).count m = 1) := by
  have hbase :
      rotatorOutputs ms.length ⟨0, ms⟩ = ms := by
    rw [rotatorOutputs_eq_map ms ms.length 0 h]
    have hfun :
        ∀ k ∈ List.range ms.length,
          ms.getD ((0 + k) % ms.length) "" = ms.getD k "" := by
      intro k hk
      rw [List.mem_range] at hk
      rw [Nat.zero_add, Nat.mod_eq_of_lt hk]
    rw [List.map_congr_left hfun, map_range_getD]
  refine ⟨hbase, ?_, ?_⟩
  · rw [rotatorOutputs_eq_map ms (2 * ms.length) 0 h]
    apply List.ext_getElem
    · simp [two_mul]
    · intro i h1 h2
      simp only [List.getElem_map, List.getElem_range, Nat.zero_add]
      rcases Nat.lt_or_ge i ms.length with hi | hi
      · rw [Nat.mod_eq_of_lt hi, List.getD_eq_getElem ms ""
          (by exact hi), List.getElem_append_left hi]
      · have hsub : i % ms.length = i - ms.length := by
          rw [Nat.mod_eq_sub_mod hi]
          apply Nat.mod_eq_of_lt
          simp only [List.length_map, List.length_range] at h1
          omega
        have hlt : i - ms.length < ms.length := by
          simp only [List.length_map, List.length_range] at h1
          omega
        rw [hsub, List.getD_eq_getElem ms "" hlt, List.getElem_append_right hi]
  · intro hnd m hm
    rw [hbase]
    exact List.count_eq_one_of_mem hnd hm

/-- Closed witness for `modelRotator_cyclic` at the concrete four-model
Gemini pool. -/
theorem modelRotator_cyclic_witness :
    rotatorOutputs geminiModels.length ⟨0, geminiModels⟩ = geminiModels :=
  (modelRotator_cyclic geminiModels (by decide)).1

/-- Overall-score aggregation of
`individual_metric_evaluator.py` lines 253-255:
`valid_scores = [s for s in scores if s > 0.0]` and
`overall_score = sum(valid_scores)/len(valid_scores) if valid_scores else 0.0`. -/
def overallFromScores (scores : List ℚ) : ℚ :=
  let valid := scores.filter (fun s => decide (0 < s))
  if valid.length = 0 then 0 else valid.sum / (valid.length : ℚ)

/-- Overall-score aggregation exactly as written in `web_evaluator.py`
line 204: `sum(s for s in L if s > 0) / len([s for s in L if s > 0])
if any(s > 0 for s in L) else 0.0`. -/
def webOverallScore (scores : List ℚ) : ℚ :=
  if scores.any (fun s => decide (0 < s)) then
    (scores.filter (fun s => decide (0 < s))).sum /
      (((scores.filter (fun s => decide (0 < s))).length : ℚ))
  else 0

/-- Claim C2: the overall score is the arithmetic mean of exactly the metric
scores strictly greater than `0.0`, and `0.0` when no score is positive; the
two aggregation sites (`individual_metric_evaluator.py` and
`web_evaluator.py`) agree, and the spec example `{0.0, 0.8, 0.6}` yields
`0.7`. -/
theorem overall_score_mean_of_positives (scores : List ℚ) :
    overallFromScores scores = webOverallScore scores ∧
    ((∃ s ∈ scores, 0 < s) →
      overallFromScores scores =
        (scores.filter (fun s => decide (0 < s))).sum /
          (((scores.filter (fun s => decide (0 < s))).length : ℚ))) ∧
    ((∀ s ∈ scores, s ≤ 0) → overallFromScores scores = 0) ∧
    overallFromScores [0, 8/10, 6/10] = 7/10 := by
  have hnonempty :
      (∃ s ∈ scores, 0 < s) ↔
        (scores.filter (fun s => decide (0 < s))).length ≠ 0 := by
    rw [Ne, List.length_eq_zero, List.filter_eq_nil_iff]
    push_neg
    simp
  refine ⟨?_, ?_, ?_, ?_⟩
  · by_cases hex : ∃ s ∈ scores, 0 < s
    · have hlen := (hnonempty).mp hex
      have hany : scores.any (fun s => decide (0 < s)) = true := by
        rw [List.any_eq_true]
        obtain ⟨s, hs, hpos⟩ := hex
        exact ⟨s, hs, by simpa using hpos⟩
      simp only [overallFromScores, webOverallScore, hany, if_true, hlen, if_false]
    · have hlen : (scores.filter (fun s => decide (0 < s))).length = 0 := by
        by_contra hne
        exact hex (hnonempty.mpr hne)
      have hany : scores.any (fun s => decide (0 < s)) = false := by
        rw [List.any_eq_false]
        intro s hs
        simp only [decide_eq_true_eq]
        intro hpos
        exact hex ⟨s, hs, hpos⟩
      simp only [overallFromScores, webOverallScore, hany, hlen, if_true,
        Bool.false_eq_true, if_false]
  · intro hex
    have hlen := hnonempty.mp hex
    simp only [overallFromScores, hlen, if_false]
  · intro hall
    have hlen : (scores.filter (fun s => decide (0 < s))).length = 0 := by
      rw [List.length_eq_zero, List.filter_eq_nil_iff]
      intro s hs
      simp only [decide_eq_true_eq, not_lt]
      exact hall s hs
    simp only [overallFromScores, hlen, if_true]
  · have h1 : (decide ((0:ℚ) < 0)) = false := by norm_num
    have h2 : (decide ((0:ℚ) < 8/10)) = true := by norm_num
    have h3 : (decide ((0:ℚ) < 6/10)) = true := by norm_num
    simp only [overallFromScores, List.filter_cons, h1, h2, h3, if_true,
      Bool.false_eq_true, if_false, List.filter_nil]
    norm_num

/-- Closed witness for `overall_score_mean_of_positives`: the spec example
`{0.0, 0.8, 0.6}` has a positive score, and the mean of the positive scores
is `0.7`. -/
theorem overall_score_mean_of_positives_witness :
    overallFromScores [0, 8/10, 6/10] =
      (([0, 8/10, 6/10] : List ℚ).filter (fun s => decide (0 < s))).sum /
        (((([0, 8/10, 6/10] : List ℚ).filter
            (fun s => decide (0 < s))).length : ℚ)) :=
  (overall_score_mean_of_positives [0, 8/10, 6/10]).2.1
    ⟨8/10, List.mem_cons_of_mem _ (List.mem_cons_self _ _), by norm_num⟩

/-! Python numeric helpers.  `Rat` addition, multiplication and division are
irreducible in this library, so all concrete rational constants in the
executable definitions are written with `mkRat` and Python's `min`/`max`
builtins are modelled by explicit `if`-based functions, keeping every
extraction path kernel-evaluable. -/

/-- Python `min(a, b)` on floats, modelled on `ℚ`. -/
def pyMin (a b : ℚ) : ℚ := if a ≤ b then a else b

/-- Python `max(a, b)` on floats, modelled on `ℚ`. -/
def pyMax (a b : ℚ) : ℚ := if b ≤ a then a else b

/-- The clamp `max(0.0, min(1.0, score))` used by every clamping producer. -/
def clamp01 (q : ℚ) : ℚ := pyMax 0 (pyMin 1 q)

theorem pyMin_le_left (a b : ℚ) : pyMin a b ≤ a := by
  unfold pyMin; split_ifs with h <;> linarith

theorem clamp01_mem (q : ℚ) : 0 ≤ clamp01 q ∧ clamp01 q ≤ 1 := by
  unfold clamp01 pyMax pyMin
  split_ifs <;> constructor <;> linarith

/-! Character and substring scanning utilities used to model the Python
`re` searches of the score extractors. -/

/-- Python `\s` (ASCII whitespace as used by `str.strip` and `re`). -/
def isWsChar (c : Char) : Bool :=
  c = ' ' || c = '\t' || c = '\n' || c = '\r' || c = '\x0b' || c = '\x0c'

/-- Python `str.strip()` restricted to ASCII whitespace. -/
def pystrip (s : List Char) : List Char :=
  ((s.dropWhile isWsChar).reverse.dropWhile isWsChar).reverse

/-- Does `pat` occur in `s` starting exactly at index `i`? -/
def matchesAt (s pat : List Char) (i : Nat) : Bool :=
  decide ((s.drop i).take pat.length = pat)

/-- Fuel-driven scan for the first occurrence of `pat` in `s` at index ≥ `i`. -/
def findFromAux (s pat : List Char) : Nat → Nat → Option Nat
  | 0, _ => none
  | fuel + 1, i =>
    if i + pat.length ≤ s.length then
      if matchesAt s pat i then some i else findFromAux s pat fuel (i + 1)
    else none

/-- First occurrence of `pat` in `s` at index ≥ `i` (like `str.find`). -/
def findFrom (s pat : List Char) (i : Nat) : Option Nat :=
  findFromAux s pat (s.length + 1) i

/-- Substring containment, as Python `pat in s`. -/
def containsSub (s pat : List Char) : Bool := (findFrom s pat 0).isSome

/-- Python slice `s[a:b]`. -/
def slice (s : List Char) (a b : Nat) : List Char := (s.take b).drop a

/-- Value of a decimal digit string (digits only). -/
def digitsToNat (ds : List Char) : Nat :=
  ds.foldl (fun n c => n * 10 + (c.toNat - 48)) 0

/-- Python `float()` applied to a regex capture of class `[0-9.]+`: accepts
digits with at most one `.` and at least one digit, else raises (`none`). -/
def parseFloatDigits (cs : List Char) : Option ℚ :=
  if cs.isEmpty then none
  else if !cs.all (fun c => c.isDigit || c = '.') then none
  else
    let intPart := cs.takeWhile (fun c => c ≠ '.')
    match cs.drop intPart.length with
    | [] => some (mkRat (digitsToNat intPart) 1)
    | _ :: frac =>
      if frac.contains '.' then none
      else if intPart.isEmpty && frac.isEmpty then none
      else some (mkRat (digitsToNat intPart * 10 ^ frac.length + digitsToNat frac)
        (10 ^ frac.length))

/-- Python `float()` on a general string (the decimal subset: optional sign
and whitespace; exponents, `inf` and `nan` are outside the modelled subset). -/
def parseFloatPy (s : List Char) : Option ℚ :=
  match pystrip s with
  | '-' :: rest => (parseFloatDigits rest).map (fun q => -q)
  | '+' :: rest => parseFloatDigits rest
  | t => parseFloatDigits t

/-! A JSON value model for the flat objects exchanged with the LLM: objects
whose values are numbers or escape-free strings, exactly the shape the
evaluator prompts request and the extraction regexes target.  `json.loads`
is modelled on this subset (arrays, nested objects, booleans, `null`,
string escapes and exponent literals are outside it). -/

/-- JSON leaf value: number or string. -/
inductive JVal where
  | num (q : ℚ)
  | str (s : String)
deriving DecidableEq

/-- Flat JSON object as an association list (keys unique in all modelled
payloads; Python's last-duplicate-wins is not exercised). -/
abbrev JObj := List (String × JVal)

/-- Python `d.get(k)` returning `None` when absent. -/
def getVal (d : JObj) (k : String) : Option JVal := d.lookup k

/-- Python `d.get(k, default)`. -/
def getValD (d : JObj) (k : String) (v : JVal) : JVal := (d.lookup k).getD v

/-- Python `k in d`. -/
def hasKey (d : JObj) (k : String) : Bool := (d.lookup k).isSome

def skipWs (s : List Char) : List Char := s.dropWhile isWsChar

/-- Parse a JSON string literal (no escape sequences in the modelled subset). -/
def parseJString : List Char → Option (String × List Char)
  | '"' :: rest =>
    let content := rest.takeWhile (fun c => c ≠ '"')
    match rest.drop content.length with
    | '"' :: rest3 => some (String.mk content, rest3)
    | _ => none
  | _ => none

/-- Parse a JSON number (optional minus, digits, optional fraction). -/
def parseJNumber (s : List Char) : Option (ℚ × List Char) :=
  let (neg, s1) : Bool × List Char :=
    match s with
    | '-' :: rest => (true, rest)
    | _ => (false, s)
  let intPart := s1.takeWhile Char.isDigit
  if intPart.isEmpty then none
  else
    match s1.drop intPart.length with
    | '.' :: s3 =>
      let frac := s3.takeWhile Char.isDigit
      if frac.isEmpty then none
      else
        let q : ℚ := mkRat (digitsToNat intPart * 10 ^ frac.length + digitsToNat frac)
          (10 ^ frac.length)
        some (if neg then -q else q, s3.drop frac.length)
    | s2 =>
      let q : ℚ := mkRat (digitsToNat intPart) 1
      some (if neg then -q else q, s2)

/-- Parse a JSON leaf value (string or number). -/
def parseJVal (s : List Char) : Option (JVal × List Char) :=
  match parseJString s with
  | some (t, rest) => some (.str t, rest)
  | none =>
    match parseJNumber s with
    | some (q, rest) => some (.num q, rest)
    | none => none

/-- Parse the `"key": value (, "key": value)*` member list of an object. -/
def parseJMembersAux : Nat → List Char → JObj → Option (JObj × List Char)
  | 0, _, _ => none
  | fuel + 1, s, acc =>
    match parseJString (skipWs s) with
    | none => none
    | some (k, rest1) =>
      match skipWs rest1 with
      | ':' :: rest2 =>
        match parseJVal (skipWs rest2) with
        | none => none
        | some (v, rest3) =>
          match skipWs rest3 with
          | ',' :: rest4 => parseJMembersAux fuel rest4 (acc ++ [(k, v)])
          | rest4 => some (acc ++ [(k, v)], rest4)
      | _ => none

/-- Parse a JSON object `{ ... }` returning the remaining input. -/
def parseJObjBody (s : List Char) : Option (JObj × List Char) :=
  match skipWs s with
  | '\x7b' :: rest =>
    match skipWs rest with
    | '\x7d' :: rest2 => some ([], rest2)
    | rest2 =>
      match parseJMembersAux (rest2.length + 1) rest2 [] with
      | some (obj, '\x7d' :: rest5) => some (obj, rest5)
      | _ => none
  | _ => none

/-- Python `json.loads` succeeding only on a whole-string flat object. -/
def jsonParseObj (s : List Char) : Option JObj :=
  match parseJObjBody s with
  | some (o, rest) => if (skipWs rest).isEmpty then some o else none
  | none => none

/-- Top-level `json.loads` result shape: an object (which supports `.get`)
or a bare scalar (whose `.get` raises `AttributeError` in Python). -/
inductive JTop where
  | obj (o : JObj)
  | scalar (v : JVal)
deriving DecidableEq

/-- Python `json.loads` on the modelled subset, keeping the object/scalar
distinction that decides whether `.get` works downstream. -/
def jsonParseTop (s : List Char) : Option JTop :=
  match jsonParseObj s with
  | some o => some (.obj o)
  | none =>
    match parseJVal (skipWs s) with
    | some (v, rest) => if (skipWs rest).isEmpty then some (.scalar v) else none
    | none => none

/-! Models of the `re.findall` / `re.search` patterns used by the extractors.
A brace is written `\x7b` / `\x7d` throughout. -/

/-- The quoted form `"KEY"` of a metric key, as it appears in the patterns. -/
def quoteKey (key : List Char) : List Char := '"' :: (key ++ ['"'])

/-- Scanner for `re.findall` of the brace-free pattern
`\x7b[^\x7b\x7d]*"KEY"[^\x7b\x7d]*\x7d` (DOTALL): every maximal chunk from a
`\x7b` to the next brace character, kept when that brace closes the chunk and
the brace-free interior contains the quoted key; scanning resumes after each
match, as the backtracking engine does. -/
def findall1Aux (s key : List Char) : Nat → Nat → List (List Char)
  | 0, _ => []
  | fuel + 1, i =>
    match findFrom s ['\x7b'] i with
    | none => []
    | some p =>
      let inner := (s.drop (p + 1)).takeWhile (fun c => c ≠ '\x7b' && c ≠ '\x7d')
      let b := p + 1 + inner.length
      if b < s.length then
        if s.getD b '\x00' = '\x7d' then
          if containsSub inner (quoteKey key) then
            slice s p (b + 1) :: findall1Aux s key fuel (b + 1)
          else findall1Aux s key fuel (b + 1)
        else findall1Aux s key fuel b
      else []

def findall1 (s key : List Char) : List (List Char) :=
  findall1Aux s key (s.length + 1) 0

/-- Scanner for `re.findall` of the lazy pattern `\x7b.*?"KEY".*?\x7d`
(DOTALL): from each `\x7b`, the first quoted key after it and the first
`\x7d` after that key, matching lazy-quantifier semantics. -/
def findall2Aux (s key : List Char) : Nat → Nat → List (List Char)
  | 0, _ => []
  | fuel + 1, i =>
    match findFrom s ['\x7b'] i with
    | none => []
    | some p =>
      match findFrom s (quoteKey key) (p + 1) with
      | none => []
      | some q =>
        match findFrom s ['\x7d'] (q + key.length + 2) with
        | none => []
        | some r => slice s p (r + 1) :: findall2Aux s key fuel (r + 1)

def findall2 (s key : List Char) : List (List Char) :=
  findall2Aux s key (s.length + 1) 0

/-- Scanner for `re.findall` of the most general lazy pattern `\x7b.*?\x7d`
(DOTALL): from each `\x7b` to the first `\x7d` after it. -/
def findall3Aux (s : List Char) : Nat → Nat → List (List Char)
  | 0, _ => []
  | fuel + 1, i =>
    match findFrom s ['\x7b'] i with
    | none => []
    | some p =>
      match findFrom s ['\x7d'] (p + 1) with
      | none => []
      | some r => slice s p (r + 1) :: findall3Aux s fuel (r + 1)

def findall3 (s : List Char) : List (List Char) :=
  findall3Aux s (s.length + 1) 0

/-- Model of `re.search` for `"KEY":\s*([0-9.]+)` returning the capture:
candidate positions are the occurrences of `"KEY":`; at each, whitespace is
skipped and a maximal nonempty `[0-9.]+` run is required. -/
def searchKeyNumAux (s key : List Char) : Nat → Nat → Option (List Char)
  | 0, _ => none
  | fuel + 1, i =>
    match findFrom s (quoteKey key ++ [':']) i with
    | none => none
    | some p =>
      let j := p + key.length + 3
      let ws := (s.drop j).takeWhile isWsChar
      let cap := (s.drop (j + ws.length)).takeWhile (fun c => c.isDigit || c = '.')
      if cap.isEmpty then searchKeyNumAux s key fuel (p + 1) else some cap

def searchKeyNum (s key : List Char) : Option (List Char) :=
  searchKeyNumAux s key (s.length + 1) 0

/-- Model of `re.search` for `["\s]*score["\s]*:\s*([0-9.]+)` returning the
capture: candidate positions are occurrences of the literal `score`; after
it, a run of quote/whitespace characters, then `:`, whitespace and a maximal
nonempty `[0-9.]+` run. -/
def searchScoreNumAux (s : List Char) : Nat → Nat → Option (List Char)
  | 0, _ => none
  | fuel + 1, i =>
    match findFrom s ['s', 'c', 'o', 'r', 'e'] i with
    | none => none
    | some p =>
      let j := p + 5
      let qws := (s.drop j).takeWhile (fun c => c = '"' || isWsChar c)
      let j1 := j + qws.length
      if s.getD j1 '\x00' = ':' then
        let ws := (s.drop (j1 + 1)).takeWhile isWsChar
        let cap := (s.drop (j1 + 1 + ws.length)).takeWhile (fun c => c.isDigit || c = '.')
        if cap.isEmpty then searchScoreNumAux s fuel (p + 1) else some cap
      else searchScoreNumAux s fuel (p + 1)

def searchScoreNum (s : List Char) : Option (List Char) :=
  searchScoreNumAux s (s.length + 1) 0

/-! Score extraction of `IndividualMetricRAGEvaluator._evaluate_single_metric`
(`evaluation/individual_metric_evaluator.py` lines 150-213): three findall
patterns in order, then a per-metric regex fallback, then the fixed `0.5`
parse-failure fallback of the inner `except` handler. -/

/-- Score and feedback extracted for one metric. -/
structure MetricParse where
  score : ℚ
  feedback : JVal
deriving DecidableEq

/-- The default feedback `f"{metric_name} evaluation completed"`. -/
def individualDefaultFeedback (metric : String) : JVal :=
  .str (metric ++ " evaluation completed")

/-- The parse-failure result of the inner `except` handler (score `0.5`,
feedback `f"{metric_name} evaluation parsing failed: ..."`, the appended
Python exception text elided). -/
def individualParseFail (metric : String) : MetricParse :=
  ⟨mkRat 1 2, .str (metric ++ " evaluation parsing failed")⟩

/-- Candidate validation: `json.loads(match)` succeeding with
`metric_name in test_data or 'feedback' in test_data`. -/
def individualCheckData (metric : String) (m : List Char) : Option JObj :=
  match jsonParseObj m with
  | some d => if hasKey d metric || hasKey d "feedback" then some d else none
  | none => none

/-- The three-pattern cascade of `json_patterns`, first accepted candidate
wins. -/
def individualFindData (metric : String) (text : List Char) : Option JObj :=
  match (findall1 text metric.toList).findSome? (individualCheckData metric) with
  | some d => some d
  | none =>
    match (findall2 text ("feedback").toList).findSome? (individualCheckData metric) with
    | some d => some d
    | none => (findall3 text).findSome? (individualCheckData metric)

/-- `float(evaluation_data.get(metric_name, 0.5))`: `none` models a
`ValueError` from `float` on a non-numeric string. -/
def individualScoreOf (d : JObj) (metric : String) : Option ℚ :=
  match getVal d metric with
  | some (.num q) => some q
  | some (.str s) => parseFloatPy s.toList
  | none => some (mkRat 1 2)

/-- The full parse section of `_evaluate_single_metric`: pattern cascade,
regex score fallback (`"METRIC":\s*([0-9.]+)`), clamp to `[0.0, 1.0]`, and
the `0.5` fallback when everything fails or `float` raises. -/
def individualParse (metric : String) (text : List Char) : MetricParse :=
  match individualFindData metric text with
  | some d =>
    match individualScoreOf d metric with
    | some q => ⟨clamp01 q, getValD d "feedback" (individualDefaultFeedback metric)⟩
    | none => individualParseFail metric
  | none =>
    match searchKeyNum text metric.toList with
    | some cap =>
      match parseFloatDigits cap with
      | some q => ⟨clamp01 q, individualDefaultFeedback metric⟩
      | none => individualParseFail metric
    | none => individualParseFail metric

/-! Score extraction of `evaluate_single_metric` in `api/langchain-eval.py`
(lines 177-233) and its duplicate in
`python_evaluators/langchain_evaluator.py` (lines 191-248): direct
`json.loads` with mode-specific boost, regex fallback, fixed default table,
and the outer-exception mode-dependent table. -/

/-- Score, reasoning and feedback returned for one metric. -/
structure EvalOut where
  score : ℚ
  reasoning : JVal
  feedback : JVal
deriving DecidableEq

/-- The fixed `base_scores` calibration table of the parse-error fallback
(`base_scores.get(metric_name, 0.75)`). -/
def langchainBaseScores (metric : String) : ℚ :=
  if metric = "relevance" then mkRat 75 100
  else if metric = "coherence" then mkRat 72 100
  else if metric = "factual_accuracy" then mkRat 78 100
  else if metric = "completeness" then mkRat 70 100
  else if metric = "context_usage" then mkRat 73 100
  else if metric = "professional_tone" then mkRat 80 100
  else mkRat 75 100

/-- The mode-dependent `base_scores` table of the outer `except` handler. -/
def langchainErrorScores (metric ragMode : String) : ℚ :=
  if metric = "relevance" then
    (if ragMode = "basic" then mkRat 75 100 else mkRat 80 100)
  else if metric = "coherence" then
    (if ragMode = "basic" then mkRat 72 100 else mkRat 78 100)
  else if metric = "factual_accuracy" then
    (if ragMode = "basic" then mkRat 78 100 else mkRat 83 100)
  else if metric = "completeness" then
    (if ragMode = "basic" then mkRat 70 100 else mkRat 76 100)
  else if metric = "context_usage" then
    (if ragMode = "basic" then mkRat 73 100 else mkRat 79 100)
  else if metric = "professional_tone" then
    (if ragMode = "basic" then mkRat 80 100 else mkRat 85 100)
  else mkRat 75 100

/-- The outer `except` fallback result (reached from the parse section only
when `float` raises on a regex capture, or when `json.loads` returned a bare
scalar so `.get` raised `AttributeError`). -/
def langchainOuterFallback (metric ragMode : String) : EvalOut :=
  ⟨langchainErrorScores metric ragMode,
   .str ("Fallback evaluation for " ++ metric ++ " due to error"),
   .str (metric ++ " evaluation failed - using fallback score")⟩

/-- `float(parsed_result.get('score', 0.7))`: `none` models a `ValueError`
on a non-numeric string value. -/
def jsonScoreField (d : JObj) : Option ℚ :=
  match getVal d "score" with
  | some (.num q) => some q
  | some (.str s) => parseFloatPy s.toList
  | none => some (mkRat 7 10)

/-- The regex fallback branch of `evaluate_single_metric`
(`["\s]*score["\s]*:\s*([0-9.]+)`, clamp, else the fixed calibration
table). -/
def langchainRegexPath (metric ragMode : String) (result : List Char) : EvalOut :=
  match searchScoreNum result with
  | some cap =>
    match parseFloatDigits cap with
    | some q =>
      ⟨clamp01 q, .str "Extracted from LLM response",
       .str (metric ++ " evaluation completed with parsing fallback")⟩
    | none => langchainOuterFallback metric ragMode
  | none =>
    ⟨langchainBaseScores metric, .str "Fallback due to parsing error",
     .str (metric ++ " evaluation completed with fallback")⟩

/-- The parse section of `evaluate_single_metric` applied to the raw LLM
response: `json.loads(result.strip())`; on a parsed object, the `score`
field (default `0.7`) gets the `min(1.0, score * 1.1)` boost exactly when
`rag_mode == 'advanced'` and is then clamped; on parse failure the regex
fallback; on a parsed non-object the `.get` attribute error reaches the
outer handler. -/
def evaluateSingleMetricParse (metric ragMode : String) (result : List Char) : EvalOut :=
  match jsonParseTop (pystrip result) with
  | some (.obj d) =>
    match jsonScoreField d with
    | some score0 =>
      let score1 := if ragMode = "advanced" then pyMin 1 (score0 * mkRat 11 10) else score0
      ⟨clamp01 score1,
       getValD d "reasoning" (.str "LangChain evaluation completed"),
       getValD d "feedback" (.str (metric ++ " evaluated using LangChain framework"))⟩
    | none => langchainRegexPath metric ragMode result
  | some (.scalar _) => langchainOuterFallback metric ragMode
  | none => langchainRegexPath metric ragMode result

/-! Score extraction of `SimpleLangChainRAGEvaluator.evaluate_response`
(`evaluation/simple_langchain_evaluator.py` lines 111-198): pattern cascade,
per-key regex fallback building a score dict, then unclamped score
extraction with `0.5` defaults. -/

/-- The six evaluation criteria of the simple evaluator (also the six
canonical metric names shared by all metric evaluators). -/
def simpleCriteria : List String :=
  ["relevance", "coherence", "factual_accuracy", "completeness",
   "context_usage", "professional_tone"]

/-- Candidate validation of the simple evaluator:
`any(key in test_data for key in ['relevance', 'coherence', 'overall_score'])`. -/
def simpleCheckData (m : List Char) : Option JObj :=
  match jsonParseObj m with
  | some d =>
    if hasKey d "relevance" || hasKey d "coherence" || hasKey d "overall_score"
    then some d else none
  | none => none

/-- The three-pattern cascade of the simple evaluator. -/
def simpleFindData (text : List Char) : Option JObj :=
  match (findall1 text ("relevance").toList).findSome? simpleCheckData with
  | some d => some d
  | none =>
    match (findall2 text ("overall_score").toList).findSome? simpleCheckData with
    | some d => some d
    | none => (findall3 text).findSome? simpleCheckData

/-- The seven `score_patterns` keys, in iteration order. -/
def simpleScoreKeys : List String := simpleCriteria ++ ["overall_score"]

/-- The regex fallback of the simple evaluator: one `"KEY":\s*([0-9.]+)`
search per key, building a dict; `.error` models `float` raising
`ValueError` on a malformed capture, which aborts to the `0.5` fallback. -/
def simpleRegexScores (text : List Char) : Except Unit JObj :=
  simpleScoreKeys.foldl (fun acc k =>
    match acc with
    | .error e => .error e
    | .ok d =>
      match searchKeyNum text k.toList with
      | none => .ok d
      | some cap =>
        match parseFloatDigits cap with
        | some q => .ok (d ++ [(k, .num q)])
        | none => .error ()) (.ok [])

/-- Result of the simple evaluator's parse section: overall score and the
six per-criterion scores. -/
structure SimpleEvalOut where
  overall : ℚ
  scores : List (String × ℚ)
  feedback : JVal
deriving DecidableEq

/-- The `0.5`-everywhere parse-failure fallback of the simple evaluator. -/
def simpleParseFail : SimpleEvalOut :=
  ⟨mkRat 1 2, simpleCriteria.map (fun c => (c, mkRat 1 2)),
   .str "Evaluation parsing failed"⟩

/-- Python `float(v)` on a JSON value. -/
def floatOfJVal (v : JVal) : Option ℚ :=
  match v with
  | .num q => some q
  | .str s => parseFloatPy s.toList

/-- `float(evaluation_data.get(criterion, 0.5))` — note: no clamping. -/
def simpleCriterionScore (d : JObj) (c : String) : Option ℚ :=
  match getVal d c with
  | some v => floatOfJVal v
  | none => some (mkRat 1 2)

/-- The common tail of the simple evaluator once `evaluation_data` is found:
unclamped criterion scores with `0.5` defaults, overall score defaulting to
their mean, `0.5` fallback when a `float` conversion raises. -/
def simpleCommon (d : JObj) : SimpleEvalOut :=
  match simpleCriteria.mapM (simpleCriterionScore d) with
  | none => simpleParseFail
  | some cs =>
    let overallOpt : Option ℚ :=
      match getVal d "overall_score" with
      | some v => floatOfJVal v
      | none => some (cs.sum / (cs.length : ℚ))
    match overallOpt with
    | none => simpleParseFail
    | some ov =>
      ⟨ov, simpleCriteria.zip cs,
       getValD d "feedback" (.str "LangChain evaluation completed successfully")⟩

/-- The full parse section of `SimpleLangChainRAGEvaluator.evaluate_response`
applied to the raw LLM response text. -/
def simpleParse (text : List Char) : SimpleEvalOut :=
  match simpleFindData text with
  | some d => simpleCommon d
  | none =>
    match simpleRegexScores text with
    | .error _ => simpleParseFail
    | .ok [] => simpleParseFail
    | .ok d => simpleCommon d

/-- The degradation-test input of the spec, `"not json at all"`. -/
def notJsonText : List Char := ("not json at all").toList

/-- The round-trip test input `'\x7b"<metric>": 0.73, "feedback": "x"\x7d'`. -/
def roundTripInput (m : String) : List Char :=
  ("\x7b\"" ++ m ++ "\": 0.73, \"feedback\": \"x\"\x7d").toList

/-- A response that fails `json.loads` but matches the score regex. -/
def regexHalfInput : List Char := ("bad \"score\": 0.5").toList

/-- A well-formed single-score JSON response. -/
def jsonHalfInput : List Char := ("\x7b\"score\": 0.5\x7d").toList

theorem mkRat_half_mem : 0 ≤ (mkRat 1 2 : ℚ) ∧ (mkRat 1 2 : ℚ) ≤ 1 := by
  rw [Rat.mkRat_eq_div]; norm_num

theorem langchainBaseScores_mem (m : String) :
    0 ≤ langchainBaseScores m ∧ langchainBaseScores m ≤ 1 := by
  unfold langchainBaseScores
  split_ifs <;> constructor <;> (rw [Rat.mkRat_eq_div]; norm_num)

theorem langchainErrorScores_mem (m mode : String) :
    0 ≤ langchainErrorScores m mode ∧ langchainErrorScores m mode ≤ 1 := by
  unfold langchainErrorScores
  split_ifs <;> constructor <;> (rw [Rat.mkRat_eq_div]; norm_num)

theorem langchainRegexPath_score_mem (metric ragMode : String) (result : List Char) :
    0 ≤ (langchainRegexPath metric ragMode result).score ∧
      (langchainRegexPath metric ragMode result).score ≤ 1 := by
  unfold langchainRegexPath langchainOuterFallback
  split
  · split
    · exact clamp01_mem _
    · exact langchainErrorScores_mem metric ragMode
  · exact langchainBaseScores_mem metric

theorem evaluateSingleMetricParse_score_mem (metric ragMode : String) (text : List Char) :
    0 ≤ (evaluateSingleMetricParse metric ragMode text).score ∧
      (evaluateSingleMetricParse metric ragMode text).score ≤ 1 := by
  unfold evaluateSingleMetricParse langchainOuterFallback
  split
  · split
    · exact clamp01_mem _
    · exact langchainRegexPath_score_mem metric ragMode text
  · exact langchainErrorScores_mem metric ragMode
  · exact langchainRegexPath_score_mem metric ragMode text

theorem individualParse_score_mem (metric : String) (text : List Char) :
    0 ≤ (individualParse metric text).score ∧ (individualParse metric text).score ≤ 1 := by
  unfold individualParse individualParseFail
  split
  · split
    · exact clamp01_mem _
    · exact mkRat_half_mem
  · split
    · split
      · exact clamp01_mem _
      · exact mkRat_half_mem
    · exact mkRat_half_mem

/-- Claim C1 (amended): the two API metric evaluators
(`api/langchain-eval.py` and `python_evaluators/langchain_evaluator.py`) and
the individual-metric evaluator clamp every extraction path (JSON parse,
regex extraction, default table, error fallback) into `[0.0, 1.0]`; the
claim's universal clamping fails only for `SimpleLangChainRAGEvaluator`,
which returns the parsed or regex-extracted score unclamped (see the
counterexample). -/
theorem clamping_extractors_in_range (metric ragMode : String) (text : List Char) :
    (0 ≤ (evaluateSingleMetricParse metric ragMode text).score ∧
      (evaluateSingleMetricParse metric ragMode text).score ≤ 1) ∧
    (0 ≤ (individualParse metric text).score ∧
      (individualParse metric text).score ≤ 1) :=
  ⟨evaluateSingleMetricParse_score_mem metric ragMode text,
   individualParse_score_mem metric text⟩

/-- Claim C1 counterexample: `SimpleLangChainRAGEvaluator` does not clamp —
on the LLM response `'\x7b"relevance": 5.0\x7d'` its extraction returns the
relevance score `5.0`, outside `[0.0, 1.0]`. -/
theorem simple_evaluator_unclamped_counterexample :
    ((simpleParse ("\x7b\"relevance\": 5.0\x7d").toList).scores.lookup "relevance")
      = some (mkRat 5 1) ∧ ¬ ((mkRat 5 1 : ℚ) ≤ 1) := by
  constructor
  · decide
  · rw [Rat.mkRat_eq_div]; norm_num

/-- Claim C4 counterexample: on the input `"not json at all"` the
individual-metric evaluator's extraction returns the fixed `0.5` fallback,
not the claimed calibration-table default (`0.75` for relevance). -/
theorem individual_default_not_table_counterexample :
    (individualParse "relevance" notJsonText).score = mkRat 1 2 ∧
    (mkRat 1 2 : ℚ) ≠ mkRat 75 100 := by
  constructor <;> decide

/-- Claim C4 (amended): on the unparsable input `"not json at all"`, the API
evaluator's extraction returns the metric's fixed calibration-table default
(relevance `0.75`, coherence `0.72`, factual_accuracy `0.78`, completeness
`0.70`, context_usage `0.73`, professional_tone `0.80`) with the fixed
reasoning string `'Fallback due to parsing error'`; the individual-metric
evaluator's extraction instead returns the fixed default `0.5` with a
parsing-failure feedback; neither raises (both are total). -/
theorem extraction_default_fallback (m : String) (hm : m ∈ simpleCriteria) :
    (evaluateSingleMetricParse m "basic" notJsonText).score = langchainBaseScores m ∧
    (evaluateSingleMetricParse m "basic" notJsonText).reasoning =
      .str "Fallback due to parsing error" ∧
    individualParse m notJsonText = individualParseFail m := by
  fin_cases hm <;> exact ⟨by decide, by decide, by decide⟩

/-- Closed witness for `extraction_default_fallback` at the metric
`relevance`. -/
theorem extraction_default_fallback_witness :
    (evaluateSingleMetricParse "relevance" "basic" notJsonText).score =
      langchainBaseScores "relevance" ∧
    (evaluateSingleMetricParse "relevance" "basic" notJsonText).reasoning =
      .str "Fallback due to parsing error" ∧
    individualParse "relevance" notJsonText = individualParseFail "relevance" :=
  extraction_default_fallback "relevance" (by decide)

/-- Claim C5: for every metric key `m`, extraction from the well-formed JSON
response `'\x7b"<m>": 0.73, "feedback": "x"\x7d'` returns the score exactly
`0.73` (as an exact rational — no precision loss) and the feedback `"x"`. -/
theorem json_roundtrip_exact :
    (mkRat 73 100 : ℚ) = 73 / 100 ∧
    ∀ m ∈ simpleCriteria,
      individualParse m (roundTripInput m) = ⟨mkRat 73 100, .str "x"⟩ := by
  constructor
  · rw [Rat.mkRat_eq_div]; norm_num
  · intro m hm
    fin_cases hm <;> decide

/-- Closed witness for `json_roundtrip_exact` at the metric `relevance`. -/
theorem json_roundtrip_exact_witness :
    individualParse "relevance" (roundTripInput "relevance") =
      ⟨mkRat 73 100, .str "x"⟩ :=
  json_roundtrip_exact.2 "relevance" (by decide)

/-- Claim C8 counterexample: in `advanced` mode, a response that fails
`json.loads` but yields a score through the regex fallback
(`'bad "score": 0.5'`) is returned as `0.5` — the `1.1` boost is not
applied, though the claim requires `0.55` for every advanced-mode
extraction. -/
theorem advanced_boost_skipped_counterexample :
    (evaluateSingleMetricParse "relevance" "advanced" regexHalfInput).score
      = mkRat 1 2 ∧
    (mkRat 1 2 : ℚ) ≠ mkRat 11 20 := by
  constructor <;> decide

/-- Claim C8 (amended): the `min(1.0, score * 1.1)` boost followed by the
re-clamp is applied exactly when the raw response itself parses as a JSON
object; scores obtained from the regex fallback and from the default
calibration table are returned without boost, identically in `basic` and
`advanced` modes; `basic` mode never boosts. -/
theorem boost_only_on_json_path (m : String) (raw : List Char) :
    (∀ d q, jsonParseTop (pystrip raw) = some (.obj d) → jsonScoreField d = some q →
      (evaluateSingleMetricParse m "advanced" raw).score =
        clamp01 (pyMin 1 (q * mkRat 11 10)) ∧
      (evaluateSingleMetricParse m "basic" raw).score = clamp01 q) ∧
    (∀ cap q, jsonParseTop (pystrip raw) = none → searchScoreNum raw = some cap →
      parseFloatDigits cap = some q →
      (evaluateSingleMetricParse m "advanced" raw).score = clamp01 q ∧
      (evaluateSingleMetricParse m "basic" raw).score = clamp01 q) ∧
    (jsonParseTop (pystrip raw) = none → searchScoreNum raw = none →
      (evaluateSingleMetricParse m "advanced" raw).score = langchainBaseScores m ∧
      (evaluateSingleMetricParse m "basic" raw).score = langchainBaseScores m) := by
  refine ⟨?_, ?_, ?_⟩
  · intro d q h1 h2
    constructor <;> simp [evaluateSingleMetricParse, h1, h2]
  · intro cap q h1 h2 h3
    constructor <;> simp [evaluateSingleMetricParse, langchainRegexPath, h1, h2, h3]
  · intro h1 h2
    constructor <;> simp [evaluateSingleMetricParse, langchainRegexPath, h1, h2]

/-- Closed witness for `boost_only_on_json_path`: the boost fires on a
parsed JSON response and is skipped on the regex and default paths. -/
theorem boost_only_on_json_path_witness :
    (evaluateSingleMetricParse "relevance" "advanced" jsonHalfInput).score =
      clamp01 (pyMin 1 (mkRat 1 2 * mkRat 11 10)) ∧
    (evaluateSingleMetricParse "relevance" "advanced" regexHalfInput).score =
      clamp01 (mkRat 1 2) ∧
    (evaluateSingleMetricParse "relevance" "advanced" notJsonText).score =
      langchainBaseScores "relevance" := by
  refine ⟨?_, ?_, ?_⟩
  · exact ((boost_only_on_json_path "relevance" jsonHalfInput).1
      [("score", .num (mkRat 1 2))] (mkRat 1 2) (by decide) (by decide)).1
  · exact ((boost_only_on_json_path "relevance" regexHalfInput).2.1
      ['0', '.', '5'] (mkRat 1 2) (by decide) (by decide) (by decide)).1
  · exact ((boost_only_on_json_path "relevance" notJsonText).2.2
      (by decide) (by decide)).1

/-! The GROQ retry/backoff loop of `RAGEvaluator._groq_based_evaluation`
(`evaluation/rag_evaluator.py` lines 481-507). -/

/-- The rate-limit classification
`'429' in error_msg or 'rate_limit_exceeded' in error_msg`. -/
def isRateLimit (msg : String) : Bool :=
  containsSub msg.toList ("429").toList ||
    containsSub msg.toList ("rate_limit_exceeded").toList

/-- Outcome of one LLM invocation: a response text, or a raised provider
error with its message. -/
inductive CallResult where
  | ok (text : String)
  | error (msg : String)
deriving DecidableEq

/-- Observable effect of one run of the retry loop: the backoff sleeps (in
seconds, in order) and the final outcome (response text or raised error). -/
structure RetryTrace where
  sleeps : List Nat
  outcome : CallResult
deriving DecidableEq

/-- The `while retry_count < max_retries` loop body, with `calls n` the
outcome of the `n`-th LLM invocation.  On a rate-limit error the counter is
incremented first and the wait computed as `25 + retry_count * 15`, then
slept, then `retry_count >= max_retries` re-raises; a non-rate-limit error
re-raises immediately.  The fuel argument counts the remaining loop
iterations (`max_retries - retry_count`); its exhaustion models the
`response is None` raise after the loop. -/
def groqRetryGo (calls : Nat → CallResult) :
    Nat → Nat → Nat → List Nat → RetryTrace
  | 0, _, _, sleeps => ⟨sleeps, .error "Failed to get response after retries"⟩
  | fuel + 1, attempt, retryCount, sleeps =>
    match calls attempt with
    | .ok t => ⟨sleeps, .ok t⟩
    | .error e =>
      if isRateLimit e then
        let rc := retryCount + 1
        let wait := 25 + rc * 15
        let sleeps2 := sleeps ++ [wait]
        if 3 ≤ rc then ⟨sleeps2, .error e⟩
        else groqRetryGo calls fuel (attempt + 1) rc sleeps2
      else ⟨sleeps, .error e⟩

/-- The retry loop entered with `max_retries = 3`, `retry_count = 0`. -/
def groqRetryLoop (calls : Nat → CallResult) : RetryTrace :=
  groqRetryGo calls 3 0 0 []

/-- Stub LLM failing with a rate-limit error on the first two calls and
succeeding on the third. -/
def rlStubTwoFail : Nat → CallResult := fun n =>
  if n < 2 then .error "429 Too Many Requests" else .ok "ok-response"

/-- Stub LLM failing with a rate-limit error on every call. -/
def rlStubAllFail : Nat → CallResult := fun _ =>
  .error "rate_limit_exceeded"

/-- Stub LLM failing with a non-rate-limit error on every call. -/
def fatalStub : Nat → CallResult := fun _ => .error "boom"

/-- Claim C6: the retry behaviour evaluated at the failing inputs.  A stub
failing rate-limited twice then succeeding does produce exactly two backoff
sleeps and a success — but the sleeps are `40s, 55s` (and `40s, 55s, 70s`
when all three attempts fail), not the `25s, 40s, 55s` stated by the claim
and by the code's own inline comment, because `wait_time = 25 +
retry_count * 15` is computed after `retry_count` was incremented; a
non-rate-limit error fails immediately with no sleep, as claimed. -/
theorem retry_backoff_divergence :
    groqRetryLoop rlStubTwoFail = ⟨[40, 55], .ok "ok-response"⟩ ∧
    groqRetryLoop rlStubAllFail = ⟨[40, 55, 70], .error "rate_limit_exceeded"⟩ ∧
    groqRetryLoop fatalStub = ⟨[], .error "boom"⟩ ∧
    ([40, 55] : List Nat) ≠ [25, 40] := by
  refine ⟨by decide, by decide, by decide, by decide⟩

/-! The all-zero detection gate and score-update loop of
`_groq_based_evaluation` (`evaluation/rag_evaluator.py` lines 534-556). -/

/-- The six metrics requested from the LLM and present in the per-question
`result` dict (lines 445-452 and the evaluation prompt). -/
def groqMetricKeys : List String :=
  ["context_precision", "context_recall", "context_relevancy",
   "answer_relevancy", "faithfulness", "answer_correctness"]

/-- `[float(score) for score in eval_scores.values() if isinstance(score,
(int, float))]`. -/
def numericValues (d : JObj) : List ℚ :=
  d.filterMap (fun p => match p.2 with | .num q => some q | .str _ => none)

/-- The all-zero detection condition of lines 536-537:
`len(all_scores) == 7 and sum(all_scores) == 0.0`. -/
def allZeroGate (d : JObj) : Bool :=
  decide ((numericValues d).length = 7) && decide ((numericValues d).sum = 0)

/-- `max(0.1, min(1.0, float(score)))` of line 547. -/
def groqParsedScore (s : ℚ) : ℚ := pyMax (mkRat 1 10) (pyMin 1 s)

/-- Overwrite the value at key `k` of the result dict. -/
def setScore (result : List (String × ℚ)) (k : String) (v : ℚ) :
    List (String × ℚ) :=
  result.map (fun p => if p.1 = k then (p.1, v) else p)

/-- The update loop of lines 543-549: each parsed numeric metric present in
`result` is floored/capped into `[0.1, 1.0]` and counted. -/
def groqUpdateScores (es : JObj) (result : List (String × ℚ)) :
    List (String × ℚ) × Nat :=
  es.foldl (fun acc p =>
    match p.2 with
    | .num s =>
      if (acc.1.lookup p.1).isSome then
        (setScore acc.1 p.1 (groqParsedScore s), acc.2 + 1)
      else acc
    | .str _ => acc) (result, 0)

/-- Lines 534-556 applied to the parsed response: empty or absent
`eval_scores` leaves the defaults and `success = False`; a response caught
by the all-zero gate is discarded likewise; otherwise the update loop runs
and `success = updated_count >= 3`. -/
def groqApplyParsed (evalScores : Option JObj) (result0 : List (String × ℚ)) :
    List (String × ℚ) × Bool :=
  match evalScores with
  | some es =>
    if es.isEmpty then (result0, false)
    else if allZeroGate es then (result0, false)
    else
      let rc := groqUpdateScores es result0
      (rc.1, decide (3 ≤ rc.2))
  | none => (result0, false)

/-- The parsed response with all six requested metrics exactly `0.0`. -/
def groqZerosResponse : JObj := groqMetricKeys.map (fun k => (k, .num 0))

/-- A concrete default result dict (the random defaults of lines 443-452,
taken at `0.5`; the update loop overwrites every entry anyway). -/
def groqHalfDefaults : List (String × ℚ) :=
  groqMetricKeys.map (fun k => (k, mkRat 1 2))

/-- Claim C7: the all-zero systemic-failure gate requires exactly seven
numeric scores, but the evaluation requests (and the result dict holds)
six metrics — so a response whose six scores are all exactly `0.0` is not
discarded: the gate evaluates to `false`, every zero is floored up to
`0.1`, and the update counts as a success, so the heuristic fallback never
runs, contradicting the claim and the code's own
`Check if all scores are zero` comment. -/
theorem all_zero_gate_never_fires :
    (∀ p ∈ groqZerosResponse, p.2 = .num 0) ∧
    allZeroGate groqZerosResponse = false ∧
    (groqApplyParsed (some groqZerosResponse) groqHalfDefaults).2 = true ∧
    (groqApplyParsed (some groqZerosResponse) groqHalfDefaults).1 =
      groqMetricKeys.map (fun k => (k, mkRat 1 10)) := by
  have hlen : (numericValues groqZerosResponse).length = 6 := by decide
  have hgate : allZeroGate groqZerosResponse = false := by
    unfold allZeroGate
    rw [hlen]
    simp
  refine ⟨by decide, hgate, ?_, ?_⟩
  · simp only [groqApplyParsed, hgate]
    decide
  · simp only [groqApplyParsed, hgate]
    decide

/-! The RAG-system query wrapper `RAGEvaluator.query_rag_system`
(`evaluation/rag_evaluator.py` lines 328-393). -/

/-- The parsed fields of a successful HTTP response body:
`data.get("message", "")`, the source contents, and
`metadata.get("techniquesUsed", [])`. -/
structure RagBody where
  message : String
  sources : List String
  techniques : List String
deriving DecidableEq

/-- Outcome of the `requests.post` call (plus `response.json()`): either a
status code with parsed body, or a raised exception with its message. -/
inductive HttpOutcome where
  | response (status : Nat) (body : RagBody)
  | raised (msg : String)
deriving DecidableEq

/-- The result dict built at lines 382-391. -/
structure RagQueryResult where
  answer : String
  contexts : List String
  responseTime : ℚ
  ragMode : String
  techniquesUsed : Option (List String)
deriving DecidableEq

/-- `query_rag_system`: a 200 response yields the message and contexts; a
non-200 status yields `f"Error: {status}"` with empty contexts; any raised
exception is caught and yields `f"Connection error: {e}"` with empty
contexts; the measured elapsed time is always recorded; `techniques_used`
is attached only in advanced mode with a nonempty techniques list.  The
function is total: no outcome escapes as an exception. -/
def queryRagSystem (ragMode : String) (outcome : HttpOutcome) (elapsed : ℚ) :
    RagQueryResult :=
  match outcome with
  | .response status body =>
    if status = 200 then
      { answer := body.message, contexts := body.sources, responseTime := elapsed,
        ragMode := ragMode,
        techniquesUsed :=
          if ragMode = "advanced" && !body.techniques.isEmpty then
            some body.techniques
          else none }
    else
      { answer := "Error: " ++ toString status, contexts := [],
        responseTime := elapsed, ragMode := ragMode, techniquesUsed := none }
  | .raised msg =>
    { answer := "Connection error: " ++ msg, contexts := [],
      responseTime := elapsed, ragMode := ragMode, techniquesUsed := none }

/-- Claim C9: every query outcome is returned as a normal result — a
non-200 status becomes an answer string embedding the status with empty
contexts, a connection failure becomes an answer string embedding the
exception text with empty contexts, and the measured response time is
always recorded; the operation is total, so one failed query cannot abort
a batch. -/
theorem query_rag_failures_nonfatal (mode : String) (outcome : HttpOutcome)
    (elapsed : ℚ) :
    (∀ status body, outcome = .response status body → status ≠ 200 →
      queryRagSystem mode outcome elapsed =
        { answer := "Error: " ++ toString status, contexts := [],
          responseTime := elapsed, ragMode := mode, techniquesUsed := none }) ∧
    (∀ msg, outcome = .raised msg →
      queryRagSystem mode outcome elapsed =
        { answer := "Connection error: " ++ msg, contexts := [],
          responseTime := elapsed, ragMode := mode, techniquesUsed := none }) ∧
    (queryRagSystem mode outcome elapsed).responseTime = elapsed := by
  refine ⟨?_, ?_, ?_⟩
  · intro status body h hne
    subst h
    simp [queryRagSystem, hne]
  · intro msg h
    subst h
    rfl
  · rcases outcome with ⟨status, body⟩ | msg
    · simp only [queryRagSystem]
      split_ifs <;> rfl
    · rfl

/-- Closed witness for `query_rag_failures_nonfatal`: a 500 response is
returned as an error-embedding answer with empty contexts. -/
theorem query_rag_failures_nonfatal_witness :
    queryRagSystem "basic" (.response 500 ⟨"", [], []⟩) 1 =
      { answer := "Error: " ++ toString 500, contexts := [],
        responseTime := 1, ragMode := "basic", techniquesUsed := none } :=
  (query_rag_failures_nonfatal "basic" (.response 500 ⟨"", [], []⟩) 1).1
    500 ⟨"", [], []⟩ rfl (by decide)

/-! The three score producers of `_groq_based_evaluation` for claim C10:
random defaults (lines 443-452), parsed-score flooring (line 547, via
`groqParsedScore` above) and the heuristic fallback (lines 562-583). -/

/-- Python `round(q, 3)` (round-half-even matches `round` except exactly at
half-thousandths, which no bound here depends on). -/
def round3 (q : ℚ) : ℚ := (round (q * 1000) : ℚ) / 1000

/-- One default metric score of lines 443-452:
`base_score = 0.5 + (random() - 0.5) * 0.1` and
`round(base_score + (random() - 0.5) * 0.05, 3)`. -/
def groqDefaultMetric (r1 r2 : ℚ) : ℚ :=
  round3 ((1/2 + (r1 - 1/2) * (1/10)) + (r2 - 1/2) * (1/20))

/-- The final clamp loop of lines 582-583:
`max(0.2, min(0.9, result[metric]))`. -/
def heuristicClamp (v : ℚ) : ℚ := pyMax (2/10) (pyMin (9/10) v)

/-- The heuristic fallback scores of lines 566-583 as a function of the
answer/context word counts and the six random draws: length-based base and
context scores, per-metric floored and rounded values, then the final
clamp. -/
def heuristicScores (answerWords contextWords : Nat) (r1 r2 r3 r4 r5 r6 : ℚ) :
    List (String × ℚ) :=
  let baseScore : ℚ := 3/10 + (min answerWords 100 : ℚ) / 200
  let contextScore : ℚ := 3/10 + (min contextWords 50 : ℚ) / 100
  let pre : List (String × ℚ) :=
    [("context_precision", round3 (pyMax (2/10) (contextScore + (r1 - 1/2) * (3/10)))),
     ("context_recall", round3 (pyMax (2/10) (contextScore + (r2 - 1/2) * (3/10)))),
     ("context_relevancy", round3 (pyMax (2/10) (contextScore + (r3 - 1/2) * (3/10)))),
     ("answer_relevancy", round3 (pyMax (3/10) (baseScore + (r4 - 1/2) * (3/10)))),
     ("faithfulness", round3 (pyMax (3/10) (baseScore + (r5 - 1/2) * (3/10)))),
     ("answer_correctness", round3 (pyMax (2/10) (baseScore + (r6 - 1/2) * (4/10))))]
  pre.map (fun p => (p.1, heuristicClamp p.2))

theorem le_pyMax_left (a b : ℚ) : a ≤ pyMax a b := by
  unfold pyMax; split_ifs with h <;> linarith

theorem round3_bounds (x : ℚ) : x - 1/2000 ≤ round3 x ∧ round3 x ≤ x + 1/2000 := by
  have h := abs_sub_round (x * 1000)
  rw [abs_le] at h
  obtain ⟨h1, h2⟩ := h
  unfold round3
  constructor
  · rw [le_div_iff₀ (by norm_num : (0:ℚ) < 1000)]
    linarith
  · rw [div_le_iff₀ (by norm_num : (0:ℚ) < 1000)]
    linarith

theorem mkRat_tenth_eq : (mkRat 1 10 : ℚ) = 1/10 := by
  rw [Rat.mkRat_eq_div]; norm_num

/-- Claim C10: every per-metric score the direct GROQ evaluation strategy
can produce is strictly positive — parsed scores are floored at `0.1`,
every heuristic-fallback score is floored at `0.2` by the final clamp, and
the initial random defaults stay within `[0.42, 0.58]` (near `0.5`) for any
draws in `[0, 1]`; consequently the zero-exclusion rule of the
overall-score aggregation discards nothing: over all-positive scores it is
the plain arithmetic mean. -/
theorem groq_strategy_scores_positive :
    (∀ s : ℚ, 1/10 ≤ groqParsedScore s) ∧
    (∀ aw cw : Nat, ∀ r1 r2 r3 r4 r5 r6 : ℚ,
      ∀ p ∈ heuristicScores aw cw r1 r2 r3 r4 r5 r6, 2/10 ≤ p.2) ∧
    (∀ r1 r2 : ℚ, 0 ≤ r1 → r1 ≤ 1 → 0 ≤ r2 → r2 ≤ 1 →
      42/100 ≤ groqDefaultMetric r1 r2 ∧ groqDefaultMetric r1 r2 ≤ 58/100) ∧
    (∀ scores : List ℚ, (∀ s ∈ scores, 0 < s) →
      overallFromScores scores = scores.sum / (scores.length : ℚ)) := by
  refine ⟨?_, ?_, ?_, ?_⟩
  · intro s
    unfold groqParsedScore
    rw [mkRat_tenth_eq]
    exact le_pyMax_left (1/10) (pyMin 1 s)
  · intro aw cw r1 r2 r3 r4 r5 r6 p hp
    simp only [heuristicScores, List.mem_map] at hp
    obtain ⟨q, _, rfl⟩ := hp
    exact le_pyMax_left (2/10) (pyMin (9/10) q.2)
  · intro r1 r2 h1 h2 h3 h4
    have hb := round3_bounds ((1/2 + (r1 - 1/2) * (1/10)) + (r2 - 1/2) * (1/20))
    unfold groqDefaultMetric
    constructor <;> [nlinarith; nlinarith]
  · intro scores hpos
    have hf : scores.filter (fun s => decide (0 < s)) = scores := by
      rw [List.filter_eq_self]
      intro s hs
      simpa using hpos s hs
    unfold overallFromScores
    rw [hf]
    rcases Nat.eq_zero_or_pos scores.length with hz | hnz
    · rw [if_pos hz]
      rw [List.length_eq_zero] at hz
      subst hz
      norm_num
    · rw [if_neg (by omega)]

/-- Closed witness for `groq_strategy_scores_positive`: the default score at
draws `1/2, 1/2` is at least `0.42`, and the aggregation over the
all-positive singleton `[1]` is the plain mean. -/
theorem groq_strategy_scores_positive_witness :
    42/100 ≤ groqDefaultMetric (1/2) (1/2) ∧
    overallFromScores [1] = ([1] : List ℚ).sum / ((([1] : List ℚ).length : ℚ)) := by
  constructor
  · exact (groq_strategy_scores_positive.2.2.1 (1/2) (1/2)
      (by norm_num) (by norm_num) (by norm_num) (by norm_num)).1
  · exact groq_strategy_scores_positive.2.2.2 [1]
      (by intro s hs; rw [List.mem_singleton] at hs; subst hs; norm_num)

end RagSpec
